import Mathlib

/-!
Verification development for the Christmas_Tree_for_photo application
(`src/App.tsx`). The relevant program fragments are shallowly embedded:

* calls to `Math.random()` become explicit parameters `u : ℝ` (or `ℚ`)
  ranging over `[0,1)`;
* three.js `MathUtils.damp` / `MathUtils.lerp` and `Vector3.lerp` are
  embedded from their library sources (`lerp(x,y,t) = (1-t)*x + t*y`,
  `damp(x,y,λ,dt) = lerp(x,y,1 - exp(-λ*dt))`, `Vector3.lerp` applies the
  scalar law componentwise with an unclamped alpha);
* JS floating point numbers are modelled as real (geometry) or rational
  (event pipeline) numbers;
* the asynchronous gesture pipeline becomes a step relation over an
  explicit trace of resolution events, with the `cancelled` closure flag
  made part of the state.
-/

namespace ChristmasTree

/-- Scene mode, the single authoritative state (`'CHAOS' | 'FORMED'` in the
source). -/
inductive SceneMode
  | CHAOS
  | FORMED
deriving DecidableEq, Repr

/-- Entity counts per group, the `counts` field of `BASE_CONFIG`. -/
structure Counts where
  foliage : Nat
  ornaments : Nat
  elements : Nat
  lights : Nat
deriving DecidableEq, Repr

/-- `BASE_CONFIG.counts` (desktop defaults). -/
def baseCounts : Counts := ⟨15000, 300, 200, 400⟩

/-- `useRuntimeConfig`: on mobile the counts are aggressively downscaled,
otherwise the base config is returned unchanged. -/
def useRuntimeConfig (isMobile : Bool) : Counts :=
  if isMobile then ⟨4000, 100, 60, 120⟩ else baseCounts

/-- A 3-vector with real coordinates (`THREE.Vector3`). -/
structure Vec3 where
  x : ℝ
  y : ℝ
  z : ℝ

/-- `MathUtils.lerp(x, y, t) = (1 - t) * x + t * y` (three.js source). -/
noncomputable def lerp (x y t : ℝ) : ℝ := (1 - t) * x + t * y

/-- `MathUtils.damp(x, y, lambda, dt) = lerp(x, y, 1 - exp(-lambda * dt))`
(three.js source). -/
noncomputable def damp (x y lambda dt : ℝ) : ℝ := lerp x y (1 - Real.exp (-lambda * dt))

/-- `THREE.Vector3.lerp(target, alpha)`: componentwise
`this += (target - this) * alpha`, with no clamping of `alpha`. -/
noncomputable def vlerp (p target : Vec3) (alpha : ℝ) : Vec3 :=
  ⟨lerp p.x target.x alpha, lerp p.y target.y alpha, lerp p.z target.z alpha⟩

/-- Euclidean distance between two embedded vectors. -/
noncomputable def dist3 (a b : Vec3) : ℝ :=
  Real.sqrt ((a.x - b.x) ^ 2 + (a.y - b.y) ^ 2 + (a.z - b.z) ^ 2)

/-- The morph-progress target of a mode: `state === 'FORMED' ? 1 : 0`
(`Foliage.useFrame`). -/
noncomputable def progressTarget (mode : SceneMode) : ℝ :=
  if mode = SceneMode.FORMED then 1 else 0

/-- One frame of the foliage group's progress scalar:
`uProgress = MathUtils.damp(uProgress, targetProgress, 1.5, delta)`
(`Foliage.useFrame`). -/
noncomputable def uProgressStep (mode : SceneMode) (p dt : ℝ) : ℝ :=
  damp p (progressTarget mode) 1.5 dt

/-- The active target of an entity: `isFormed ? targetPos : chaosPos`. -/
noncomputable def activeTarget (mode : SceneMode) (chaosPos targetPos : Vec3) : Vec3 :=
  if mode = SceneMode.FORMED then targetPos else chaosPos

/-- The ornament group's mode-dependent lerp rate:
`delta * (isFormed ? 0.8 : 0.5)` uses this factor (`PhotoOrnaments.useFrame`). -/
noncomputable def ornamentRate (mode : SceneMode) : ℝ :=
  if mode = SceneMode.FORMED then 0.8 else 0.5

/-- One frame of an ornament's position:
`objData.currentPos.lerp(target, delta * (isFormed ? 0.8 : 0.5))`
(`PhotoOrnaments.useFrame`). -/
noncomputable def ornamentPosStep (mode : SceneMode) (chaosPos targetPos p : Vec3) (delta : ℝ) : Vec3 :=
  vlerp p (activeTarget mode chaosPos targetPos) (delta * ornamentRate mode)

/-- One frame of a Christmas-element position:
`objData.currentPos.lerp(target, delta * 1.2)` (`ChristmasElements.useFrame`). -/
noncomputable def elementPosStep (mode : SceneMode) (chaosPos targetPos p : Vec3) (delta : ℝ) : Vec3 :=
  vlerp p (activeTarget mode chaosPos targetPos) (delta * 1.2)

/-- One frame of a fairy-light position:
`objData.currentPos.lerp(target, delta * 1.8)` (`FairyLights.useFrame`). -/
noncomputable def lightPosStep (mode : SceneMode) (chaosPos targetPos p : Vec3) (delta : ℝ) : Vec3 :=
  vlerp p (activeTarget mode chaosPos targetPos) (delta * 1.8)

/-- `getTreePosition(treeCfg)` with the three `Math.random()` calls made
explicit parameters `u1 u2 u3 ∈ [0,1)`:
`y = u1*h - h/2`, `normalizedY = (y + h/2)/h`,
`currentRadius = rBase * (1 - normalizedY)`, `theta = u2*2π`,
`r = u3 * currentRadius`, result `(r cos θ, y, r sin θ)`. -/
noncomputable def getTreePosition (height radius u1 u2 u3 : ℝ) : Vec3 :=
  let h := height
  let rBase := radius
  let y := u1 * h - h / 2
  let normalizedY := (y + h / 2) / h
  let currentRadius := rBase * (1 - normalizedY)
  let theta := u2 * (Real.pi * 2)
  let r := u3 * currentRadius
  ⟨r * Real.cos theta, y, r * Real.sin theta⟩

/-- The formed target of a photo ornament (`PhotoOrnaments.data`): same tree
sampling but with the radius offset by `+ 0.5` and no random radial offset:
`currentRadius = (rBase * (1 - (y + h/2)/h)) + 0.5`,
`targetPos = (currentRadius cos θ, y, currentRadius sin θ)` with `h = 22`,
`rBase = 9`. -/
noncomputable def ornamentTargetPos (u1 u2 : ℝ) : Vec3 :=
  let h : ℝ := 22
  let y := u1 * h - h / 2
  let rBase : ℝ := 9
  let currentRadius := rBase * (1 - (y + h / 2) / h) + 0.5
  let theta := u2 * (Real.pi * 2)
  ⟨currentRadius * Real.cos theta, y, currentRadius * Real.sin theta⟩

/-- The formed target of a Christmas element (`ChristmasElements.data`):
tree sampling with the radius scaled by `0.95` and no random radial offset. -/
noncomputable def elementTargetPos (u1 u2 : ℝ) : Vec3 :=
  let h : ℝ := 22
  let y := u1 * h - h / 2
  let rBase : ℝ := 9
  let currentRadius := rBase * (1 - (y + h / 2) / h) * 0.95
  let theta := u2 * (Real.pi * 2)
  ⟨currentRadius * Real.cos theta, y, currentRadius * Real.sin theta⟩

/-! ### Gesture recognition pipeline (GestureController)

The per-frame classification results and the events dispatched from one
`predictWebcam` iteration.  JS numbers are modelled as rationals here; the
unguarded JS index accesses `results.gestures[0][0]` and
`results.landmarks[0][0]` are modelled through `List.head?`. -/

/-- One classification category returned by the recognizer:
`{categoryName, score}`. -/
structure Category where
  categoryName : String
  score : ℚ
deriving DecidableEq, Repr

/-- One hand landmark (mediapipe normalized landmark; the code reads `.x`). -/
structure Landmark where
  x : ℚ
  y : ℚ
deriving DecidableEq, Repr

/-- The result of `recognizeForVideo`: per detected hand a list of
classification categories and a list of landmarks. -/
structure RecognitionResults where
  gestures : List (List Category)
  landmarks : List (List Landmark)
deriving DecidableEq, Repr

/-- An event dispatched to the scene state:
`onGesture(mode)` or `onMove(rate)` in the source. -/
inductive GestureEvent
  | ModeSwitch (target : SceneMode)
  | Rotate (rate : ℚ)
deriving DecidableEq, Repr

/-- The rotation rate derived from the primary landmark:
`speed = (0.5 - results.landmarks[0][0].x) * 0.15;`
`onMove(Math.abs(speed) > 0.01 ? speed : 0)` (`predictWebcam`). -/
def deriveSpeed (x : ℚ) : ℚ :=
  let speed := (0.5 - x) * 0.15
  if |speed| > 0.01 then speed else 0

/-- The mode-switch events fired from the top classification:
`if (score > 0.4) { if (name === 'Open_Palm') onGesture('CHAOS');`
`if (name === 'Closed_Fist') onGesture('FORMED'); }` (`predictWebcam`). -/
def modeSwitchEvents (top : Category) : List GestureEvent :=
  if top.score > 0.4 then
    (if top.categoryName = "Open_Palm" then [GestureEvent.ModeSwitch SceneMode.CHAOS] else [])
      ++
    (if top.categoryName = "Closed_Fist" then [GestureEvent.ModeSwitch SceneMode.FORMED] else [])
  else []

/-- The rotation event fired from the primary landmark, when present:
`if (results.landmarks.length > 0) { ... onMove(...) }` (`predictWebcam`).
Note this is NOT inside the `score > 0.4` gate in the source. -/
def rotateEvents (landmarks : List (List Landmark)) : List GestureEvent :=
  match landmarks.head? with
  | some hand =>
    match hand.head? with
    | some lm => [GestureEvent.Rotate (deriveSpeed lm.x)]
    | none => []
  | none => []

/-- The events dispatched by one `predictWebcam` iteration that reaches the
recognizer (not cancelled, `videoWidth > 0`):
`if (results.gestures.length > 0) { <mode-switch gate>; <rotation> }`
`else { onMove(0); }`. -/
def frameEvents (results : RecognitionResults) : List GestureEvent :=
  match results.gestures.head? with
  | some hand =>
    match hand.head? with
    | some top => modeSwitchEvents top ++ rotateEvents results.landmarks
    | none => []
  | none => [GestureEvent.Rotate 0]

/-- Extract the mode-switch targets from an event list. -/
def modeSwitches (events : List GestureEvent) : List SceneMode :=
  events.filterMap fun e =>
    match e with
    | GestureEvent.ModeSwitch m => some m
    | GestureEvent.Rotate _ => none

/-! ### Pipeline lifecycle: setup, cancellation, per-frame control flow -/

/-- Result of the `GestureController` effect's first branch:
on mobile the pipeline is disabled proactively with a fixed status and
`setup()` is never invoked; otherwise setup proceeds. -/
inductive InitResult
  | Disabled (status : String)
  | StartSetup
deriving DecidableEq, Repr

/-- `GestureController.useEffect` entry:
`if (isMobile) { onStatus('AI DISABLED ON MOBILE'); return () => {}; }`
else `setup()` runs. -/
def gestureControllerInit (isMobile : Bool) : InitResult :=
  if isMobile then InitResult.Disabled "AI DISABLED ON MOBILE" else InitResult.StartSetup

/-- Result of the asynchronous `setup()` body: either the loop is started
with a ready status, or a failure status string is reported. -/
inductive SetupResult
  | ready (status : String)
  | failed (status : String)
deriving DecidableEq, Repr

/-- `GestureController.setup`: the model load and camera acquisition run
inside one `try/catch`; any thrown error message `msg` becomes the status
`ERROR: msg`; the missing-mediaDevices branch reports a fixed error status.
The fallible awaits are modelled as `Except` parameters. -/
def setup (modelLoad : Except String Unit) (hasMediaDevices : Bool)
    (cameraAcquire : Except String Unit) : SetupResult :=
  match modelLoad with
  | Except.error msg => SetupResult.failed ("ERROR: " ++ msg)
  | Except.ok _ =>
    if hasMediaDevices then
      match cameraAcquire with
      | Except.error msg => SetupResult.failed ("ERROR: " ++ msg)
      | Except.ok _ => SetupResult.ready "AI READY: SHOW HAND"
    else SetupResult.failed "ERROR: CAMERA PERMISSION DENIED"

/-- Outcome of one `predictWebcam` callback invocation. `errored` models an
exception escaping the callback: no events are dispatched, no status is
reported, and `requestAnimationFrame` on the last line is never reached. -/
inductive FrameOutcome
  | ok (events : List GestureEvent) (reschedule : Bool)
  | errored
deriving DecidableEq, Repr

/-- One `predictWebcam` invocation:
the whole body is guarded by `... && !cancelled`; inside, the recognizer is
called only when `videoWidth > 0`; `requestAnimationFrame(predictWebcam)`
runs after the inner block, still inside the guard. A throwing
`recognizeForVideo` call (modelled by `Except.error`) aborts the callback
before the reschedule line. -/
def predictWebcamIteration (cancelled : Bool) (videoWidth : Nat)
    (recognize : Except String RecognitionResults) : FrameOutcome :=
  if cancelled then FrameOutcome.ok [] false
  else if videoWidth = 0 then FrameOutcome.ok [] true
  else
    match recognize with
    | Except.error _ => FrameOutcome.errored
    | Except.ok results => FrameOutcome.ok (frameEvents results) true

/-- An observable step of the pipeline's asynchronous schedule:
the teardown function runs (`cancel`), an in-flight `setup()` await resolves
(`setupResolves`, which dispatches only status strings and, when it starts
the loop, tail-calls `predictWebcam` whose guard re-checks `cancelled`), or
a scheduled `predictWebcam` callback fires on a frame (`frame`). -/
inductive PipelineStep
  | cancel
  | setupResolves
  | frame (results : RecognitionResults)
deriving DecidableEq, Repr

/-- Pipeline state visible to event dispatch: the `cancelled` closure flag. -/
structure PipelineState where
  cancelled : Bool
deriving DecidableEq, Repr

/-- Events dispatched by one schedule step, with the successor state.
`frame` dispatches `frameEvents` only when the `!cancelled` guard passes —
this is the guard at the top of `predictWebcam`; JS runs the guarded body
atomically (single-threaded), so guard and dispatch form one step. -/
def stepEvents (s : PipelineState) (step : PipelineStep) :
    PipelineState × List GestureEvent :=
  match step with
  | PipelineStep.cancel => (⟨true⟩, [])
  | PipelineStep.setupResolves => (s, [])
  | PipelineStep.frame results => (s, if s.cancelled then [] else frameEvents results)

/-- The state after running a schedule. -/
def runState (s : PipelineState) : List PipelineStep → PipelineState
  | [] => s
  | st :: rest => runState (stepEvents s st).1 rest

/-- The per-step event lists of a schedule. -/
def runEvents (s : PipelineState) : List PipelineStep → List (List GestureEvent)
  | [] => []
  | st :: rest => (stepEvents s st).2 :: runEvents (stepEvents s st).1 rest

/-! ### Scene state and applied rotation (Experience, App) -/

/-- The `autoRotate` prop of the orbit controls:
`autoRotate={rotationSpeed === 0 && sceneState === 'FORMED'}` (`Experience`). -/
def autoRotate (rotationSpeed : ℚ) (mode : SceneMode) : Bool :=
  decide (rotationSpeed = 0) && decide (mode = SceneMode.FORMED)

/-- The manual UI toggle button:
`setSceneState(s => s === 'CHAOS' ? 'FORMED' : 'CHAOS')`. -/
def toggleMode (s : SceneMode) : SceneMode :=
  if s = SceneMode.CHAOS then SceneMode.FORMED else SceneMode.CHAOS

/-- `Experience.useFrame` applies the stored rotation rate unchanged:
`setAzimuthalAngle(getAzimuthalAngle() + rotationSpeed)`. -/
def applyRotation (azimuth rotationSpeed : ℚ) : ℚ := azimuth + rotationSpeed

/-! ### Helper lemmas -/

/-- The damping law contracts the offset to the target by `exp (-λ dt)`. -/
lemma damp_sub_target (x y lam dt : ℝ) :
    damp x y lam dt - y = (x - y) * Real.exp (-lam * dt) := by
  simp only [damp, lerp]
  ring

/-- Componentwise lerp scales the distance to the target by `|1 - α|`. -/
lemma dist3_vlerp (p t : Vec3) (a : ℝ) :
    dist3 (vlerp p t a) t = |1 - a| * dist3 p t := by
  simp only [dist3, vlerp, lerp]
  have h : ((1 - a) * p.x + a * t.x - t.x) ^ 2 + ((1 - a) * p.y + a * t.y - t.y) ^ 2 +
      ((1 - a) * p.z + a * t.z - t.z) ^ 2 =
      (1 - a) ^ 2 * ((p.x - t.x) ^ 2 + (p.y - t.y) ^ 2 + (p.z - t.z) ^ 2) := by
    ring
  rw [h, Real.sqrt_mul (sq_nonneg _), Real.sqrt_sq_eq_abs]

/-- For a step factor `α ∈ [0, 2]` the lerp does not increase the distance
to the target. -/
lemma dist3_vlerp_le (p t : Vec3) (a : ℝ) (h0 : 0 ≤ a) (h2 : a ≤ 2) :
    dist3 (vlerp p t a) t ≤ dist3 p t := by
  rw [dist3_vlerp]
  have habs : |1 - a| ≤ 1 := abs_le.mpr ⟨by linarith, by linarith⟩
  calc |1 - a| * dist3 p t ≤ 1 * dist3 p t := by
        apply mul_le_mul_of_nonneg_right habs
        exact Real.sqrt_nonneg _
    _ = dist3 p t := one_mul _

/-- The ornament lerp rate is nonnegative in both modes. -/
lemma ornamentRate_nonneg (mode : SceneMode) : 0 ≤ ornamentRate mode := by
  cases mode <;> simp [ornamentRate] <;> norm_num

/-- The progress target is `0` or `1`, hence lies in `[0, 1]`. -/
lemma progressTarget_mem (mode : SceneMode) :
    0 ≤ progressTarget mode ∧ progressTarget mode ≤ 1 := by
  cases mode <;> simp [progressTarget]

/-- `(r cos θ)² + (r sin θ)² = r²`. -/
lemma sq_cos_add_sq_sin (r θ : ℝ) :
    (r * Real.cos θ) ^ 2 + (r * Real.sin θ) ^ 2 = r ^ 2 := by
  rw [mul_pow, mul_pow, ← mul_add, Real.cos_sq_add_sin_sq, mul_one]

/-! ### C2: interpolation law and frame-rate independence -/

/-- C2 counterexample: the per-entity position advance is a linear lerp with
a delta-proportional step, not the exponential damping law. Stepping the
ornament at `(0,0,0)` toward target `(1,0,0)` in FORMED mode with
`delta = 1` twice yields `x = 0.96`, while one step with `delta = 2` yields
`x = 1.6`; a frame-rate independent law would make them equal. -/
theorem entity_lerp_not_framerate_independent :
    (ornamentPosStep SceneMode.FORMED ⟨0, 0, 0⟩ ⟨1, 0, 0⟩
        (ornamentPosStep SceneMode.FORMED ⟨0, 0, 0⟩ ⟨1, 0, 0⟩ ⟨0, 0, 0⟩ 1) 1).x ≠
      (ornamentPosStep SceneMode.FORMED ⟨0, 0, 0⟩ ⟨1, 0, 0⟩ ⟨0, 0, 0⟩ (1 + 1)).x := by
  simp [ornamentPosStep, vlerp, lerp, activeTarget, ornamentRate]
  norm_num

/-- C2 amended: the foliage group's morph progress scalar does follow the
exponential damping law and is frame-rate independent: stepping with `t1`
then `t2` equals one step with `t1 + t2`, for every start value and mode. -/
theorem progress_framerate_independent (mode : SceneMode) (p t1 t2 : ℝ) :
    uProgressStep mode (uProgressStep mode p t1) t2 =
      uProgressStep mode p (t1 + t2) := by
  have h : Real.exp (-1.5 * (t1 + t2)) = Real.exp (-1.5 * t1) * Real.exp (-1.5 * t2) := by
    rw [← Real.exp_add]
    ring_nf
  simp only [uProgressStep, damp, lerp]
  rw [h]
  ring

/-! ### C1: monotone approach to the active target -/

/-- C1 counterexample: `Vector3.lerp` does not clamp its alpha, so with a
large frame delta the step overshoots and the distance to the target
INCREASES. Ornament at `(0,0,0)`, target `(1,0,0)`, FORMED mode,
`delta = 3`: alpha `= 3 * 0.8 = 2.4`, the new position is `(2.4,0,0)` and
the distance to the target grows from `1` to `1.4`. -/
theorem ornament_distance_increases_at_large_delta :
    dist3 (⟨0, 0, 0⟩ : Vec3) ⟨1, 0, 0⟩ <
      dist3 (ornamentPosStep SceneMode.FORMED ⟨0, 0, 0⟩ ⟨1, 0, 0⟩ ⟨0, 0, 0⟩ 3) ⟨1, 0, 0⟩ := by
  have h1 : dist3 (⟨0, 0, 0⟩ : Vec3) ⟨1, 0, 0⟩ = 1 := by
    simp [dist3]
  have h2 : ornamentPosStep SceneMode.FORMED ⟨0, 0, 0⟩ ⟨1, 0, 0⟩ ⟨0, 0, 0⟩ 3 =
      vlerp ⟨0, 0, 0⟩ ⟨1, 0, 0⟩ (3 * ornamentRate SceneMode.FORMED) := by
    simp [ornamentPosStep, activeTarget]
  rw [h2, dist3_vlerp, h1, mul_one]
  have h3 : (1 : ℝ) - 3 * ornamentRate SceneMode.FORMED = -(7 / 5) := by
    simp [ornamentRate]
    norm_num
  rw [h3, abs_neg, abs_of_nonneg (by norm_num : (0 : ℝ) ≤ 7 / 5)]
  norm_num

/-- C1 amended: while the mode is held constant, the foliage progress
scalar moves monotonically toward its target (`1` in FORMED, `0` in CHAOS)
and never leaves `[0,1]`, for every frame delta `≥ 0`; and an entity's
distance to its active target is non-increasing over a frame provided the
lerp step factor `delta * rate` does not exceed `2` (the unclamped lerp
overshoots beyond that, as the counterexample shows). -/
theorem morph_monotone_toward_target (mode : SceneMode) (p dt : ℝ)
    (hp0 : 0 ≤ p) (hp1 : p ≤ 1) (hdt : 0 ≤ dt)
    (chaosPos targetPos pos : Vec3) :
    (0 ≤ uProgressStep mode p dt ∧ uProgressStep mode p dt ≤ 1 ∧
      |uProgressStep mode p dt - progressTarget mode| ≤ |p - progressTarget mode|) ∧
    (dt * ornamentRate mode ≤ 2 →
      dist3 (ornamentPosStep mode chaosPos targetPos pos dt)
          (activeTarget mode chaosPos targetPos) ≤
        dist3 pos (activeTarget mode chaosPos targetPos)) := by
  have he0 : 0 < Real.exp (-1.5 * dt) := Real.exp_pos _
  have he1 : Real.exp (-1.5 * dt) ≤ 1 := Real.exp_le_one_iff.mpr (by nlinarith)
  obtain ⟨ht0, ht1⟩ := progressTarget_mem mode
  refine ⟨⟨?_, ?_, ?_⟩, fun hstep => ?_⟩
  · have : uProgressStep mode p dt =
        Real.exp (-1.5 * dt) * p + (1 - Real.exp (-1.5 * dt)) * progressTarget mode := by
      simp only [uProgressStep, damp, lerp]
      ring
    rw [this]
    have := mul_nonneg he0.le hp0
    nlinarith
  · have : uProgressStep mode p dt =
        Real.exp (-1.5 * dt) * p + (1 - Real.exp (-1.5 * dt)) * progressTarget mode := by
      simp only [uProgressStep, damp, lerp]
      ring
    rw [this]
    nlinarith
  · have h := damp_sub_target p (progressTarget mode) 1.5 dt
    rw [uProgressStep, h, abs_mul, abs_of_pos he0]
    exact mul_le_of_le_one_right (abs_nonneg _) he1
  · exact dist3_vlerp_le pos (activeTarget mode chaosPos targetPos)
      (dt * ornamentRate mode) (mul_nonneg hdt (ornamentRate_nonneg mode)) hstep

/-- C1 witness: the amended theorem applied at FORMED mode, `p = 1/2`,
`dt = 1`, ornament at the origin with target `(1,0,0)`. -/
theorem morph_monotone_toward_target_witness :
    (0 ≤ (1 / 2 : ℝ) ∧ (1 / 2 : ℝ) ≤ 1 ∧ (0 : ℝ) ≤ 1 ∧
      (1 : ℝ) * ornamentRate SceneMode.FORMED ≤ 2) ∧
    ((0 ≤ uProgressStep SceneMode.FORMED (1 / 2) 1 ∧
      uProgressStep SceneMode.FORMED (1 / 2) 1 ≤ 1 ∧
      |uProgressStep SceneMode.FORMED (1 / 2) 1 - progressTarget SceneMode.FORMED| ≤
        |(1 / 2 : ℝ) - progressTarget SceneMode.FORMED|) ∧
    dist3 (ornamentPosStep SceneMode.FORMED ⟨5, 5, 5⟩ ⟨1, 0, 0⟩ ⟨0, 0, 0⟩ 1)
        (activeTarget SceneMode.FORMED ⟨5, 5, 5⟩ ⟨1, 0, 0⟩) ≤
      dist3 ⟨0, 0, 0⟩ (activeTarget SceneMode.FORMED ⟨5, 5, 5⟩ ⟨1, 0, 0⟩)) := by
  have h := morph_monotone_toward_target SceneMode.FORMED (1 / 2) 1 (by norm_num)
    (by norm_num) (by norm_num) ⟨5, 5, 5⟩ ⟨1, 0, 0⟩ ⟨0, 0, 0⟩
  exact ⟨⟨by norm_num, by norm_num, by norm_num, by simp [ornamentRate]; norm_num⟩,
    h.1, h.2 (by simp [ornamentRate]; norm_num)⟩

/-! ### C3: tree-shape layout bound -/

/-- C3 counterexample: a photo-ornament target (`PhotoOrnaments.data`) adds
`+0.5` to the tapered radius, so it violates the cone bound. With random
samples `u1 = 1/2`, `u2 = 0` the target is `(5, 0, 0)` while the bound
allows a radial distance of at most `9 * (1 - 11/22) = 4.5`. -/
theorem ornament_target_outside_cone :
    ¬ (Real.sqrt ((ornamentTargetPos (1 / 2) 0).x ^ 2 + (ornamentTargetPos (1 / 2) 0).z ^ 2) ≤
        9 * (1 - ((ornamentTargetPos (1 / 2) 0).y + 11) / 22)) := by
  have hx : (ornamentTargetPos (1 / 2) 0).x = 5 := by
    simp [ornamentTargetPos]
    norm_num
  have hy : (ornamentTargetPos (1 / 2) 0).y = 0 := by
    simp [ornamentTargetPos]
    norm_num
  have hz : (ornamentTargetPos (1 / 2) 0).z = 0 := by
    simp [ornamentTargetPos]
  rw [hx, hy, hz]
  have h25 : (5 : ℝ) ^ 2 + (0 : ℝ) ^ 2 = 5 ^ 2 := by norm_num
  rw [h25, Real.sqrt_sq (by norm_num : (0 : ℝ) ≤ 5)]
  norm_num

/-- C3 amended: every formed target generated by `getTreePosition` with the
tree configuration `height = 22`, `radius = 9` (the foliage layout) lies
inside the linear-taper cone: its radial distance from the y-axis is at
most `9 * (1 - (y + 11)/22)` and `y ∈ [-11, 11]`, for all random samples
`u1, u3 ∈ [0, 1]` and any angle sample `u2`. (The photo-ornament targets
offset the radius by `+0.5` and can lie outside the cone, as the
counterexample shows; the element targets scale it by `0.95` and the light
targets are the origin, both inside.) -/
theorem tree_position_inside_cone (u1 u2 u3 : ℝ)
    (h10 : 0 ≤ u1) (h11 : u1 ≤ 1) (h30 : 0 ≤ u3) (h31 : u3 ≤ 1) :
    Real.sqrt ((getTreePosition 22 9 u1 u2 u3).x ^ 2 + (getTreePosition 22 9 u1 u2 u3).z ^ 2) ≤
      9 * (1 - ((getTreePosition 22 9 u1 u2 u3).y + 11) / 22) ∧
    -11 ≤ (getTreePosition 22 9 u1 u2 u3).y ∧ (getTreePosition 22 9 u1 u2 u3).y ≤ 11 := by
  have hx : (getTreePosition 22 9 u1 u2 u3).x =
      u3 * (9 * (1 - u1)) * Real.cos (u2 * (Real.pi * 2)) := by
    simp [getTreePosition]
  have hz : (getTreePosition 22 9 u1 u2 u3).z =
      u3 * (9 * (1 - u1)) * Real.sin (u2 * (Real.pi * 2)) := by
    simp [getTreePosition]
  have hy : (getTreePosition 22 9 u1 u2 u3).y = u1 * 22 - 11 := by
    simp [getTreePosition]
    norm_num
  have hr0 : 0 ≤ u3 * (9 * (1 - u1)) := mul_nonneg h30 (by nlinarith)
  refine ⟨?_, ?_, ?_⟩
  · rw [hx, hz, hy, sq_cos_add_sq_sin, Real.sqrt_sq hr0]
    have hb : 9 * (1 - (u1 * 22 - 11 + 11) / 22) = 9 * (1 - u1) := by ring
    rw [hb]
    exact mul_le_of_le_one_left (by nlinarith) h31
  · rw [hy]
    nlinarith
  · rw [hy]
    nlinarith

/-- C3 witness: the amended theorem applied at `u1 = 1/2`, `u2 = 0`,
`u3 = 1/2` (target `(2.25, 0, 0)`, bound `4.5`). -/
theorem tree_position_inside_cone_witness :
    ((0 : ℝ) ≤ 1 / 2 ∧ (1 / 2 : ℝ) ≤ 1) ∧
    (Real.sqrt ((getTreePosition 22 9 (1 / 2) 0 (1 / 2)).x ^ 2 +
        (getTreePosition 22 9 (1 / 2) 0 (1 / 2)).z ^ 2) ≤
      9 * (1 - ((getTreePosition 22 9 (1 / 2) 0 (1 / 2)).y + 11) / 22) ∧
    -11 ≤ (getTreePosition 22 9 (1 / 2) 0 (1 / 2)).y ∧
      (getTreePosition 22 9 (1 / 2) 0 (1 / 2)).y ≤ 11) :=
  ⟨⟨by norm_num, by norm_num⟩,
    tree_position_inside_cone (1 / 2) 0 (1 / 2) (by norm_num) (by norm_num)
      (by norm_num) (by norm_num)⟩

/-! ### Pipeline helper lemmas -/

/-- `modeSwitches` distributes over append. -/
lemma modeSwitches_append (a b : List GestureEvent) :
    modeSwitches (a ++ b) = modeSwitches a ++ modeSwitches b := by
  simp [modeSwitches]

/-- The rotation events contain no mode switch. -/
lemma modeSwitches_rotateEvents (lms : List (List Landmark)) :
    modeSwitches (rotateEvents lms) = [] := by
  cases lms with
  | nil => rfl
  | cons hand rest =>
    cases hand with
    | nil => rfl
    | cons lm tail => rfl

/-- A schedule produces one event list per step. -/
lemma runEvents_length (s : PipelineState) (steps : List PipelineStep) :
    (runEvents s steps).length = steps.length := by
  induction steps generalizing s with
  | nil => rfl
  | cons st rest ih => simp [runEvents, ih]

/-- `runEvents` splits over schedule concatenation. -/
lemma runEvents_append (s : PipelineState) (a b : List PipelineStep) :
    runEvents s (a ++ b) = runEvents s a ++ runEvents (runState s a) b := by
  induction a generalizing s with
  | nil => rfl
  | cons st rest ih => simp [runEvents, runState, ih]

/-- Every step taken from a cancelled state stays cancelled and emits
nothing. -/
lemma stepEvents_cancelled (st : PipelineStep) :
    stepEvents ⟨true⟩ st = (⟨true⟩, []) := by
  cases st <;> rfl

/-- A cancelled pipeline emits nothing on any schedule. -/
lemma runEvents_cancelled (steps : List PipelineStep) :
    runEvents ⟨true⟩ steps = List.replicate steps.length [] := by
  induction steps with
  | nil => rfl
  | cons st rest ih =>
    simp [runEvents, stepEvents_cancelled, ih, List.replicate_succ]

/-! ### C5: no events after cancellation -/

/-- C5: once the teardown step sets the `cancelled` flag, every later step
of the schedule — a later frame callback, or a `setup()` await resolving
after cancellation — dispatches no gesture event: all event lists from the
cancel step on are empty. -/
theorem no_events_after_cancel (pre post : List PipelineStep) :
    List.drop pre.length
        (runEvents ⟨false⟩ (pre ++ PipelineStep.cancel :: post)) =
      List.replicate (post.length + 1) [] := by
  rw [runEvents_append]
  rw [show pre.length = (runEvents (⟨false⟩ : PipelineState) pre).length from
    (runEvents_length _ _).symm]
  rw [List.drop_left]
  have hcancel : stepEvents (runState ⟨false⟩ pre) PipelineStep.cancel = (⟨true⟩, []) := rfl
  simp [runEvents, hcancel, runEvents_cancelled, List.replicate_succ]

/-! ### C4: confidence gating of mode-switch and rotation events -/

/-- C4 counterexample: a classification with confidence `0.39` (below the
`0.4` threshold) still produces a ROTATE event — the landmark branch of
`predictWebcam` is outside the `score > 0.4` gate. Here the hand is at
`x = 0.3`, giving `onMove(0.03)` while no mode switch fires. -/
theorem low_confidence_still_rotates :
    GestureEvent.Rotate (3 / 100) ∈
      frameEvents ⟨[[⟨"Closed_Fist", 0.39⟩]], [[⟨0.3, 0⟩]]⟩ ∧
    modeSwitches (frameEvents ⟨[[⟨"Closed_Fist", 0.39⟩]], [[⟨0.3, 0⟩]]⟩) = [] := by
  have h39 : ¬ ((0.39 : ℚ) > 0.4) := by norm_num
  have hd : deriveSpeed (0.3 : ℚ) = 3 / 100 := by
    norm_num [deriveSpeed, abs_of_pos, abs_of_neg]
  constructor
  · simp [frameEvents, modeSwitchEvents, rotateEvents, h39, hd]
  · simp [frameEvents, modeSwitchEvents, rotateEvents, modeSwitches_append,
      modeSwitches_rotateEvents, modeSwitches, h39]

/-- C4 amended: the `0.4` confidence threshold gates only the mode-switch
output: at confidence `0.39` no mode switch fires for any label but the
rotation event derived from the landmark is still dispatched; at
confidence `0.41` the matching mode switch fires and the rotation event is
dispatched as well. -/
theorem confidence_gates_only_mode_switch (name : String) (lx : ℚ) :
    modeSwitches (frameEvents ⟨[[⟨name, 0.39⟩]], [[⟨lx, 0⟩]]⟩) = [] ∧
    GestureEvent.Rotate (deriveSpeed lx) ∈ frameEvents ⟨[[⟨name, 0.39⟩]], [[⟨lx, 0⟩]]⟩ ∧
    modeSwitches (frameEvents ⟨[[⟨"Closed_Fist", 0.41⟩]], [[⟨lx, 0⟩]]⟩) =
      [SceneMode.FORMED] ∧
    modeSwitches (frameEvents ⟨[[⟨"Open_Palm", 0.41⟩]], [[⟨lx, 0⟩]]⟩) =
      [SceneMode.CHAOS] ∧
    GestureEvent.Rotate (deriveSpeed lx) ∈
      frameEvents ⟨[[⟨"Closed_Fist", 0.41⟩]], [[⟨lx, 0⟩]]⟩ := by
  have h39 : ¬ ((0.39 : ℚ) > 0.4) := by norm_num
  have h41 : (0.41 : ℚ) > 0.4 := by norm_num
  refine ⟨?_, ?_, ?_, ?_, ?_⟩ <;>
    simp [frameEvents, modeSwitchEvents, rotateEvents, modeSwitches_append,
      modeSwitches_rotateEvents, modeSwitches, h39, h41]

/-! ### C6: bounds on the rotation rate -/

/-- C6 counterexample: the rotation rate is never clamped. For a landmark
x-coordinate outside the nominal frame (`x = 2`), the stored rate is the
raw linear value `-9/40 = -0.225`, outside `[-3/40, 3/40]` — the range the
map attains on nominal inputs `x ∈ [0,1]`; for `x = 1000` it grows to
`-5997/40`, so no configured bound is ever applied. -/
theorem rotation_rate_not_clamped :
    deriveSpeed 2 = -(9 / 40) ∧ ¬ (|deriveSpeed 2| ≤ 3 / 40) ∧
    deriveSpeed 1000 = -(5997 / 40) := by
  refine ⟨?_, ?_, ?_⟩ <;>
    norm_num [deriveSpeed, abs_of_pos, abs_of_neg]

/-- C6 amended: the gesture pipeline applies no clamp: the stored rate is
the raw linear map `(0.5 - x) * 0.15` with a dead-zone snapping magnitudes
`≤ 0.01` to `0`, and `Experience.useFrame` adds it to the azimuth
unchanged. The rate is bounded (by `3/40 = 0.075`) only under the
assumption that the landmark coordinate lies in the nominal frame
`x ∈ [0, 1]`. -/
theorem rotation_rate_bounded_on_nominal_input (x : ℚ) (h0 : 0 ≤ x) (h1 : x ≤ 1) :
    |deriveSpeed x| ≤ 3 / 40 ∧
    (deriveSpeed x = 0 ∨ deriveSpeed x = (0.5 - x) * 0.15) ∧
    (∀ azimuth : ℚ, applyRotation azimuth (deriveSpeed x) - azimuth = deriveSpeed x) := by
  refine ⟨?_, ?_, fun azimuth => by simp [applyRotation]⟩
  · simp only [deriveSpeed]
    split
    · rw [abs_mul]
      have hx : |(0.5 : ℚ) - x| ≤ 1 / 2 := abs_le.mpr ⟨by linarith, by linarith⟩
      have h15 : |(0.15 : ℚ)| = 3 / 20 := by norm_num [abs_of_pos]
      rw [h15]
      nlinarith [abs_nonneg ((0.5 : ℚ) - x)]
    · norm_num
  · simp only [deriveSpeed]
    split
    · right
      rfl
    · left
      rfl

/-- C6 witness: the amended theorem applied at the nominal landmark
position `x = 1/5` (rate `0.045`). -/
theorem rotation_rate_bounded_witness :
    ((0 : ℚ) ≤ 1 / 5 ∧ (1 / 5 : ℚ) ≤ 1) ∧
    (|deriveSpeed (1 / 5)| ≤ 3 / 40 ∧
    (deriveSpeed (1 / 5) = 0 ∨ deriveSpeed (1 / 5) = (0.5 - 1 / 5) * 0.15) ∧
    (∀ azimuth : ℚ, applyRotation azimuth (deriveSpeed (1 / 5)) - azimuth =
      deriveSpeed (1 / 5))) :=
  ⟨⟨by norm_num, by norm_num⟩,
    rotation_rate_bounded_on_nominal_input (1 / 5) (by norm_num) (by norm_num)⟩

/-! ### C7: mobile capability degradation -/

/-- C7: the mobile profile resolves strictly smaller entity counts than the
desktop profile for every group (foliage 4000 < 15000, ornaments
100 < 300, elements 60 < 200, lights 120 < 400), the gesture pipeline is
disabled proactively with the fixed status `AI DISABLED ON MOBILE`
(`setup()` is never started), and the manual UI toggle still switches the
scene mode in both directions. -/
theorem mobile_profile_degrades :
    (useRuntimeConfig true).foliage < (useRuntimeConfig false).foliage ∧
    (useRuntimeConfig true).ornaments < (useRuntimeConfig false).ornaments ∧
    (useRuntimeConfig true).elements < (useRuntimeConfig false).elements ∧
    (useRuntimeConfig true).lights < (useRuntimeConfig false).lights ∧
    gestureControllerInit true = InitResult.Disabled "AI DISABLED ON MOBILE" ∧
    gestureControllerInit false = InitResult.StartSetup ∧
    toggleMode SceneMode.CHAOS = SceneMode.FORMED ∧
    toggleMode SceneMode.FORMED = SceneMode.CHAOS := by
  decide

/-! ### C8: error containment in the gesture pipeline -/

/-- C8 counterexample: a per-frame recognition error is NOT swallowed:
`recognizeForVideo` throwing inside `predictWebcam` aborts the callback
before the `requestAnimationFrame` line, so no status string is reported
and no further frame is scheduled — the loop stops instead of retrying. -/
theorem frame_error_stops_loop :
    predictWebcamIteration false 640 (Except.error "RecognitionRuntimeError") =
      FrameOutcome.errored ∧
    FrameOutcome.errored ≠
      FrameOutcome.ok [] true := by
  decide

/-- C8 amended: errors in the asynchronous `setup()` stage (model load and
camera acquisition) are caught by its `try/catch` and converted into
`ERROR: ...` status strings, and a missing capture API yields a fixed
error status; but a per-frame recognition error is not caught — it aborts
that `predictWebcam` callback with no event, no status and no rescheduled
frame (the render loop, being a separate callback loop, is unaffected). -/
theorem pipeline_error_containment (msg : String) (cam : Except String Unit)
    (w : Nat) (hw : w ≠ 0) :
    setup (Except.error msg) true cam = SetupResult.failed ("ERROR: " ++ msg) ∧
    setup (Except.ok ()) true (Except.error msg) =
      SetupResult.failed ("ERROR: " ++ msg) ∧
    setup (Except.ok ()) false cam = SetupResult.failed "ERROR: CAMERA PERMISSION DENIED" ∧
    predictWebcamIteration false w (Except.error msg) = FrameOutcome.errored := by
  refine ⟨rfl, rfl, ?_, ?_⟩
  · cases cam <;> rfl
  · simp [predictWebcamIteration, hw]

/-- C8 witness: the amended theorem applied at a concrete error message,
camera result and video width. -/
theorem pipeline_error_containment_witness :
    (640 ≠ 0) ∧
    (setup (Except.error "MODEL FAILED") true (Except.ok ()) =
      SetupResult.failed ("ERROR: " ++ "MODEL FAILED") ∧
    setup (Except.ok ()) true (Except.error "MODEL FAILED") =
      SetupResult.failed ("ERROR: " ++ "MODEL FAILED") ∧
    setup (Except.ok ()) false (Except.ok ()) =
      SetupResult.failed "ERROR: CAMERA PERMISSION DENIED" ∧
    predictWebcamIteration false 640 (Except.error "MODEL FAILED") =
      FrameOutcome.errored) :=
  ⟨by decide, pipeline_error_containment "MODEL FAILED" (Except.ok ()) 640 (by decide)⟩

/-! ### C9: auto-rotation fallback -/

/-- C9 counterexample: with rotation rate `0` in CHAOS mode, ambient
auto-rotation is NOT re-enabled — `autoRotate` requires
`sceneState === 'FORMED'` as well, so the fallback is not independent of
the scene mode. -/
theorem no_autorotate_in_chaos :
    autoRotate 0 SceneMode.CHAOS = false := by
  decide

/-- C9 amended: rate `0` re-enables ambient auto-rotation only in FORMED
mode: `autoRotate` holds exactly when the rotation rate is `0` and the
scene mode is FORMED. -/
theorem autorotate_iff_zero_rate_and_formed (rate : ℚ) (mode : SceneMode) :
    autoRotate rate mode = true ↔ (rate = 0 ∧ mode = SceneMode.FORMED) := by
  simp [autoRotate]

/-! ### C10: label-to-mode dispatch -/

/-- C10: for a frame whose top classification passes the confidence gate,
`Open_Palm` switches the scene mode to CHAOS, `Closed_Fist` to FORMED, and
any other label produces no mode switch (the rotation event is still
derived from the landmarks, unaffected by the label). -/
theorem gesture_label_dispatch (score : ℚ) (h : score > 0.4) (name : String)
    (lms : List (List Landmark)) :
    modeSwitches (frameEvents ⟨[[⟨"Open_Palm", score⟩]], lms⟩) = [SceneMode.CHAOS] ∧
    modeSwitches (frameEvents ⟨[[⟨"Closed_Fist", score⟩]], lms⟩) = [SceneMode.FORMED] ∧
    (name ≠ "Open_Palm" → name ≠ "Closed_Fist" →
      modeSwitches (frameEvents ⟨[[⟨name, score⟩]], lms⟩) = []) := by
  have key : ∀ top : Category,
      modeSwitches (frameEvents ⟨[[top]], lms⟩) = modeSwitches (modeSwitchEvents top) := by
    intro top
    simp [frameEvents, modeSwitches_append, modeSwitches_rotateEvents]
  refine ⟨?_, ?_, fun hn1 hn2 => ?_⟩ <;> rw [key]
  · simp [modeSwitchEvents, modeSwitches, h]
  · simp [modeSwitchEvents, modeSwitches, h]
  · simp [modeSwitchEvents, modeSwitches, h, hn1, hn2]

/-- C10 witness: the dispatch theorem applied at confidence `1/2` and the
unmapped label `Thumb_Up` with no landmarks. -/
theorem gesture_label_dispatch_witness :
    ((1 / 2 : ℚ) > 0.4) ∧
    modeSwitches (frameEvents ⟨[[⟨"Thumb_Up", 1 / 2⟩]], []⟩) = [] :=
  ⟨by norm_num,
    (gesture_label_dispatch (1 / 2) (by norm_num) "Thumb_Up" []).2.2
      (by decide) (by decide)⟩

end ChristmasTree
